import Mathlib

/-!
# Verification of the go-hipchat client core (`hipchat.go`)

A shallow embedding of the connection manager (`authenticate`, `connect`),
the stanza dispatcher and reconnect supervisor (`listen`), and the session
facade (`NewClient`, `Say`, `Rooms`, `Users`) of `hipchat.go`.

The underlying `xmpp` transport package is an external collaborator: its
blocking calls are modelled by a script of read results, where each
successfully read element carries the snapshots that the transport getters
(`Features()`, `Query()`, `Body()`) would return at that point.  Side
effects performed on the transport (`Stream`, `StartTLS`, `UseTLS`, `Auth`,
`MUCSend`, `Send`, …) are reified as action traces.
-/

/-- The account-service hostname, module-level `host` in `hipchat.go`. -/
def host : String := "chat.hipchat.com"

/-- The room-service hostname, module-level `conf` in `hipchat.go`. -/
def conf : String := "conf.hipchat.com"

/-- XML namespace constants of the `xmpp` transport package (standard XMPP
stream namespace); the client code only compares them for equality. -/
def NsStream : String := "http://etherx.jabber.org/streams"

/-- XMPP STARTTLS namespace constant of the `xmpp` transport package. -/
def NsTLS : String := "urn:ietf:params:xml:ns:xmpp-tls"

/-- `jabber:client` namespace constant of the `xmpp` transport package. -/
def NsJabberClient : String := "jabber:client"

/-- Service-discovery items namespace constant of the `xmpp` package. -/
def NsDisco : String := "http://jabber.org/protocol/disco#items"

/-- Roster query namespace constant of the `xmpp` package. -/
def NsIqRoster : String := "jabber:iq:roster"

/-- An XML name, `xml.Name` in Go: a local part and a namespace. -/
structure XmlName where
  Local : String
  Space : String
deriving DecidableEq, Repr

/-- An XML attribute, `xml.Attr` in Go. -/
structure XmlAttr where
  Name : XmlName
  Value : String
deriving DecidableEq, Repr

/-- A parsed stanza head as returned by `connection.Next()`. -/
structure Element where
  Name : XmlName
  Attr : List XmlAttr
deriving DecidableEq, Repr

/-- The stream-features descriptor returned by `connection.Features()`.
`StartTLS` is `true` when the Go field `features.StartTLS` is non-nil. -/
structure Features where
  StartTLS : Bool
  Mechanisms : List String
deriving DecidableEq, Repr

/-- One item of a query payload (`item` elements of disco / roster replies). -/
structure Item where
  Jid : String
  Name : String
  MentionName : String
deriving DecidableEq, Repr

/-- The query payload returned by `connection.Query()`; `Space` is
`query.XMLName.Space` in Go. -/
structure Query where
  Space : String
  Items : List Item
deriving DecidableEq, Repr

/-- A message delivered on the `receivedMessage` channel. -/
structure Message where
  ID : String
  From : String
  To : String
  Body : String
  «Type» : String
deriving DecidableEq, Repr

/-- A member of the service, delivered in bulk on `receivedUsers`. -/
structure User where
  Id : String
  Name : String
  MentionName : String
deriving DecidableEq, Repr

/-- A room, delivered in bulk on `receivedRooms`. -/
structure Room where
  Id : String
  Name : String
deriving DecidableEq, Repr

/-- One scripted result of a blocking `connection.Next()` call, together
with the snapshots the transport getters would yield at that point. -/
inductive NextResult where
  | elem (e : Element) (f : Features) (q : Query) (body : String)
  | fail (msg : String)
deriving DecidableEq, Repr

/-- `element.Name.Local + element.Name.Space`, the Go switch scrutinee. -/
def localSpace (e : Element) : String :=
  e.Name.Local ++ e.Name.Space

/-- The Go loop `for _, attr := range element.Attr` in `authenticate` that
looks for `type=result`. -/
def hasTypeResult (attrs : List XmlAttr) : Bool :=
  attrs.any (fun a => a.Name.Local == "type" && a.Value == "result")

/-- `xmpp.ToMap(element.Attr)`: Go map lookup, empty string when absent;
later duplicate attributes overwrite earlier ones as in a Go range loop. -/
def toMap (attrs : List XmlAttr) (k : String) : String :=
  (attrs.foldl (fun acc a => if a.Name.Local == k then some a.Value else acc) none).getD ""

/-- Side-effecting transport calls issued by `authenticate`. -/
inductive AuthAction where
  | stream
  | startTLS
  | useTLS
  | auth
deriving DecidableEq, Repr

/-- Outcome of the `authenticate` loop.  `failed` is the
`errors.New("could not authenticate")` return; `transport` is the error
propagated from `connection.Next()`; `stalled` marks a script that ends
while the Go loop would still be blocked reading. -/
inductive AuthResult where
  | ok
  | failed
  | transport (msg : String)
  | stalled
deriving DecidableEq, Repr

/-- The `for` loop of `authenticate` (hipchat.go:157-187), as a function of
the scripted reads: the trace of transport calls it makes and its result. -/
def authLoop : List NextResult → List AuthAction × AuthResult
  | [] => ([], .stalled)
  | .fail msg :: _ => ([], .transport msg)
  | .elem e f _ _ :: rest =>
    if localSpace e == "stream" ++ NsStream then
      let acts := if f.StartTLS then [AuthAction.startTLS]
        else (f.Mechanisms.filter (fun m => m == "PLAIN")).map (fun _ => AuthAction.auth)
      let r := authLoop rest
      (acts ++ r.1, r.2)
    else if localSpace e == "proceed" ++ NsTLS then
      let r := authLoop rest
      (AuthAction.useTLS :: AuthAction.stream :: r.1, r.2)
    else if localSpace e == "iq" ++ NsJabberClient then
      if hasTypeResult e.Attr then ([], .ok) else ([], .failed)
    else
      authLoop rest

/-- `authenticate` (hipchat.go:155-190): opens the stream, then runs the
read loop. -/
def authenticate (script : List NextResult) : List AuthAction × AuthResult :=
  (AuthAction.stream :: (authLoop script).1, (authLoop script).2)

/-- What terminates the `authenticate` read loop, read off the script the
way the spec words it: the first read failure or the first `iq` element. -/
inductive AuthStop where
  | readFail (msg : String)
  | iqElem (e : Element)
deriving DecidableEq, Repr

/-- Scans the script for the first event that terminates the
`authenticate` loop: a read failure or a `jabber:client` `iq` element. -/
def firstAuthStop : List NextResult → Option AuthStop
  | [] => none
  | .fail msg :: _ => some (.readFail msg)
  | .elem e _ _ _ :: rest =>
    if localSpace e == "iq" ++ NsJabberClient then some (.iqElem e)
    else firstAuthStop rest

/-- An event delivered by the dispatch loop on a subscriber channel. -/
inductive DispatchEvent where
  | rooms (rs : List Room)
  | users (us : List User)
  | message (m : Message)
deriving DecidableEq, Repr

/-- The classification step of the `listen` loop body (hipchat.go:211-254)
for one successfully read stanza: the at-most-one channel event it sends.
`q` and `body` are the snapshots `connection.Query()` / `connection.Body()`
would return for this stanza. -/
def dispatch (e : Element) (q : Query) (body : String) : Option DispatchEvent :=
  if localSpace e == "iq" ++ NsJabberClient then
    if q.Space == NsDisco then
      some (.rooms (q.Items.map (fun item => { Id := item.Jid, Name := item.Name })))
    else if q.Space == NsIqRoster then
      some (.users (q.Items.map (fun item =>
        { Id := item.Jid, Name := item.Name, MentionName := item.MentionName })))
    else none
  else if localSpace e == "presence" ++ NsJabberClient then
    none
  else if localSpace e == "message" ++ NsJabberClient then
    let attr := toMap e.Attr
    if attr "type" != "groupchat" && attr "type" != "chat" then none
    else if body.length == 0 then none
    else some (.message
      { ID := attr "mid", «Type» := attr "type", From := attr "from",
        To := attr "to", Body := body })
  else none

/-- One observable step of the reconnect supervisor in `listen`
(hipchat.go:196-208): a backoff sleep in seconds, a between-rounds sleep in
minutes, or a `c.connect()` attempt with the error it returned. -/
inductive ReconnectStep where
  | sleepSec (n : Nat)
  | sleepMin (n : Nat)
  | connectTry (r : Option String)
deriving DecidableEq, Repr

/-- How the reconnect supervisor leaves its nested loops: `resumed err`
models `goto Reconnected` (taken when `c.connect()` returned the non-nil
error `err`), and `panicked err` models reaching `panic(err)`. -/
inductive ReconnectOutcome where
  | resumed (err : String)
  | panicked (err : Option String)
deriving DecidableEq, Repr

/-- The inner loop `for i := 1; i < 11; i++` of the reconnect supervisor.
`f k` is the error returned by the `(k+1)`-th `c.connect()` call of this
supervisor run; `m` is the outer-loop index, so attempt `i` of round `m`
is call number `m*10 + i - 1`.  Returns the step trace and `some err` when
the loop was left via `goto Reconnected` (i.e. `connect` returned the
error `err`), or `none` when all ten attempts returned nil. -/
def innerRound (f : Nat → Option String) (m : Nat) : List Nat → List ReconnectStep × Option String
  | [] => ([], none)
  | i :: rest =>
    match f (m * 10 + (i - 1)) with
    | some e => ([.sleepSec i, .connectTry (some e)], some e)
    | none =>
      let r := innerRound f m rest
      (.sleepSec i :: .connectTry none :: r.1, r.2)

/-- The outer loop `for m := 0; m < 5; m++` of the reconnect supervisor.
`lastErr` is the current value of the `err` variable (the read error on
entry; overwritten by every `connect` attempt, hence nil after a completed
inner round).  When the list of round indices is exhausted the code falls
through to `panic(err)`. -/
def outerRounds (f : Nat → Option String) (lastErr : Option String) : List Nat → List ReconnectStep × ReconnectOutcome
  | [] => ([], .panicked lastErr)
  | m :: rest =>
    let r := innerRound f m [1, 2, 3, 4, 5, 6, 7, 8, 9, 10]
    match r.2 with
    | some e => (r.1, .resumed e)
    | none =>
      let r2 := outerRounds f none rest
      (r.1 ++ .sleepMin m :: r2.1, r2.2)

/-- The whole reconnect supervisor block entered when `connection.Next()`
returns the error `readErr` in `listen` (hipchat.go:195-208). -/
def reconnect (f : Nat → Option String) (readErr : String) : List ReconnectStep × ReconnectOutcome :=
  outerRounds f (some readErr) [0, 1, 2, 3, 4]

/-- Number of `c.connect()` calls in a reconnect supervisor trace. -/
def countConnects (tr : List ReconnectStep) : Nat :=
  (tr.filter (fun s => match s with | .connectTry _ => true | _ => false)).length

/-- An abstract transport handle; stands for a non-nil `*xmpp.Conn`. -/
abbrev Conn := Nat

/-- The fields of `Client` observable by the claims.  Go channels and maps
are represented by whether `make` has allocated them (non-nil). -/
structure ClientState where
  Username : String
  Password : String
  Resource : String
  Id : String
  mentionNamesAllocated : Bool
  connection : Option Conn
  receivedUsersAllocated : Bool
  receivedRoomsAllocated : Bool
  receivedMessageAllocated : Bool
  onConnectAllocated : Bool
deriving DecidableEq, Repr

/-- The pair returned by `xmpp.Dial(host)`: a possibly-nil connection and a
possibly-nil error. -/
structure DialResult where
  conn : Option Conn
  err : Option String
deriving DecidableEq, Repr

/-- `connect` (hipchat.go:77-90): stores the dial result in `c.connection`
before inspecting the dial error, then authenticates.  `authErr` is the
error `c.authenticate()` would return on this transport.  The spawned
`listen` goroutine and `onConnect` send are outside this state. -/
def connect (c : ClientState) (dial : DialResult) (authErr : Option String) : ClientState × Option String :=
  let c1 := { c with connection := dial.conn }
  match dial.err with
  | some e => (c1, some e)
  | none =>
    match authErr with
    | some e => (c1, some e)
    | none => (c1, none)

/-- `NewClient` (hipchat.go:57-75): builds the client value — identity and
all four subscriber channels — and only then attempts `connect`, returning
the client together with `connect`'s error. -/
def NewClient (user pass resource : String) (dial : DialResult) (authErr : Option String) : ClientState × Option String :=
  let c : ClientState :=
    { Username := user
      Password := pass
      Resource := resource
      Id := user ++ "@" ++ host
      mentionNamesAllocated := true
      connection := none
      receivedUsersAllocated := true
      receivedRoomsAllocated := true
      receivedMessageAllocated := true
      onConnectAllocated := true }
  connect c dial authErr

/-- Go `strings.Contains(s, sub)`: `sub` occurs as a contiguous substring
of `s`. -/
def containsSubstr (s sub : String) : Bool :=
  (List.range (s.length + 1)).any (fun i => sub.toList.isPrefixOf (s.toList.drop i))

/-- The transport send performed by `Say`: a group-chat send
(`connection.MUCSend`) or a direct send (`connection.Send`). -/
inductive SayAction where
  | mucSend («to» sender body : String)
  | send («to» sender body : String)
deriving DecidableEq, Repr

/-- `Say` (hipchat.go:130-136): chooses the group-chat path when the
destination contains the room-service hostname. -/
def Say (c : ClientState) («to» name body : String) : SayAction :=
  if containsSubstr «to» conf then .mucSend «to» (c.Id ++ "/" ++ name) body
  else .send «to» (c.Id ++ "/" ++ name) body

/-- Whether a `Say` action went through the group-chat send path. -/
def isMUC : SayAction → Bool
  | .mucSend _ _ _ => true
  | .send _ _ _ => false

/-- The domain part of an XMPP address: what follows the last `@` (the
whole address when there is none), up to an optional `/resource` suffix. -/
def domainOf («to» : String) : String :=
  String.mk (((«to».toList.reverse.takeWhile (fun c => c != '@')).reverse).takeWhile
    (fun c => c != '/'))

/-- Modelled from the spec: "the destination is within the room-service
domain (conf.hipchat.com)" — the destination's domain part is that domain
or a subdomain of it. -/
def withinDomain («to» dom : String) : Bool :=
  domainOf «to» == dom || ("." ++ dom).toList.isSuffixOf (domainOf «to»).toList


/-- A string has length zero exactly when it is empty. -/
theorem string_length_eq_zero (s : String) : s.length = 0 ↔ s = "" := by
  cases s with
  | mk l =>
    constructor
    · intro h
      have hl : l = [] := List.length_eq_zero.mp h
      rw [hl]
    · intro h
      rw [h]
      rfl

/-- C1 — the reconnect supervisor does NOT resume dispatch on a successful
connect: on the input where the very first `c.connect()` attempt (and every
later one) returns a nil error, the supervisor keeps going through all 50
attempts and then reaches `panic(err)` with `err = nil`, instead of
resuming the dispatch loop after the first success as the claim states.
This evaluates the code of hipchat.go:196-208 at the failing input. -/
theorem c1_reconnect_ignores_success :
    (reconnect (fun _ => none) "read failure").2 = ReconnectOutcome.panicked none ∧
    countConnects (reconnect (fun _ => none) "read failure").1 = 50 := by
  constructor <;> rfl

/-- C2 — the reconnect supervisor does NOT panic when all attempts fail:
on the input where every `c.connect()` attempt returns the error
"dial error", the supervisor leaves via `goto Reconnected` after the very
first attempt (because `if err != nil` is the resume condition) and no
panic occurs, contradicting the claim that 50 failures are required for
the escalation and that it happens at all.  This evaluates the code of
hipchat.go:196-208 at the failing input. -/
theorem c2_reconnect_resumes_on_failure :
    (reconnect (fun _ => some "dial error") "read failure").2 =
      ReconnectOutcome.resumed "dial error" ∧
    countConnects (reconnect (fun _ => some "dial error") "read failure").1 = 1 := by
  constructor <;> rfl

/-- C9 — `NewClient` always yields a client value whose `Id` is
`user@chat.hipchat.com` and whose four subscriber channels are allocated,
for every dial and authentication outcome (in particular when the returned
error is non-nil), and the error it returns is the dial error when the
dial failed, otherwise the authentication error. -/
theorem c9_newclient_fields_set (user pass resource : String)
    (dial : DialResult) (authErr : Option String) :
    (NewClient user pass resource dial authErr).1.Id = user ++ "@" ++ "chat.hipchat.com" ∧
    (NewClient user pass resource dial authErr).1.receivedUsersAllocated = true ∧
    (NewClient user pass resource dial authErr).1.receivedRoomsAllocated = true ∧
    (NewClient user pass resource dial authErr).1.receivedMessageAllocated = true ∧
    (NewClient user pass resource dial authErr).1.onConnectAllocated = true ∧
    (NewClient user pass resource dial authErr).2 =
      (if dial.err.isSome then dial.err else authErr) := by
  rcases dial with ⟨conn, err⟩
  cases err <;> cases authErr <;> simp [NewClient, connect, host]

/-- C10 — `connect` stores the dial result into `c.connection` before
checking the dial error: whenever `xmpp.Dial` returns an error, the
client's connection field already holds the dialed (possibly nil) handle
when `connect` returns that error, so a previous live handle is lost. -/
theorem c10_connect_overwrites_connection (c : ClientState) (dial : DialResult)
    (authErr : Option String) (e : String) (h : dial.err = some e) :
    (connect c dial authErr).1.connection = dial.conn ∧
    (connect c dial authErr).2 = some e := by
  rcases dial with ⟨conn, err⟩
  cases err with
  | none => exact absurd h (by simp)
  | some e2 =>
    have he : e2 = e := by simpa using h
    subst he
    exact ⟨rfl, rfl⟩

/-- Witness for C10: a client holding live handle `7` dials, the dial
fails with a nil connection, and the handle is replaced by `none` while
the dial error is returned. -/
theorem c10_connect_overwrites_connection_witness :
    (connect ⟨"bob", "pw", "desk", "bob@chat.hipchat.com", true, some 7, true, true, true, true⟩
      ⟨none, some "dial fail"⟩ none).1.connection = none ∧
    (connect ⟨"bob", "pw", "desk", "bob@chat.hipchat.com", true, some 7, true, true, true, true⟩
      ⟨none, some "dial fail"⟩ none).2 = some "dial fail" :=
  c10_connect_overwrites_connection _ _ _ _ rfl

/-- C5 — the dispatcher delivers a `Message` for a `message` stanza exactly
when its `type` attribute is `chat` or `groupchat` and its body is
non-empty; such a stanza yields exactly one event, a `Message` whose
`Type`, `From`, `To` and `Body` come unchanged from the stanza, and any
other `message` stanza produces no event at all. -/
theorem c5_message_filter (e : Element) (q : Query) (body : String)
    (h1 : e.Name.Local = "message") (h2 : e.Name.Space = NsJabberClient) :
    ((toMap e.Attr "type" = "chat" ∨ toMap e.Attr "type" = "groupchat") ∧ body ≠ "" →
      dispatch e q body = some (.message
        { ID := toMap e.Attr "mid", «Type» := toMap e.Attr "type",
          From := toMap e.Attr "from", To := toMap e.Attr "to", Body := body })) ∧
    (¬((toMap e.Attr "type" = "chat" ∨ toMap e.Attr "type" = "groupchat") ∧ body ≠ "") →
      dispatch e q body = none) := by
  have hiq : (("message" ++ NsJabberClient) == ("iq" ++ NsJabberClient)) = false := by decide
  have hpr : (("message" ++ NsJabberClient) == ("presence" ++ NsJabberClient)) = false := by
    decide
  constructor
  · rintro ⟨ht, hb⟩
    have hlen : (body.length == 0) = false := by
      simp [string_length_eq_zero]
      exact hb
    rcases ht with ht | ht <;>
      simp [dispatch, localSpace, h1, h2, hiq, hpr, ht, hlen]
  · intro hn
    rw [not_and_or] at hn
    rcases hn with hn | hn
    · push_neg at hn
      obtain ⟨ht1, ht2⟩ := hn
      have hc : (toMap e.Attr "type" != "groupchat" && toMap e.Attr "type" != "chat") = true := by
        simp [bne]
        exact ⟨ht2, ht1⟩
      simp [dispatch, localSpace, h1, h2, hiq, hpr, hc]
    · push_neg at hn
      have hlen : (body.length == 0) = true := by
        simp [string_length_eq_zero]
        exact hn
      simp [dispatch, localSpace, h1, h2, hiq, hpr, hlen]

/-- Witness for C5: a qualifying `chat` stanza with body "hello" is
delivered unchanged. -/
theorem c5_message_filter_witness :
    dispatch
      ⟨⟨"message", NsJabberClient⟩,
        [⟨⟨"type", ""⟩, "chat"⟩, ⟨⟨"from", ""⟩, "a@chat.hipchat.com"⟩,
         ⟨⟨"to", ""⟩, "b@chat.hipchat.com"⟩, ⟨⟨"mid", ""⟩, "m1"⟩]⟩
      ⟨"", []⟩ "hello" =
      some (.message
        { ID := "m1", «Type» := "chat", From := "a@chat.hipchat.com",
          To := "b@chat.hipchat.com", Body := "hello" }) :=
  (c5_message_filter _ _ _ rfl rfl).1 ⟨Or.inl (by decide), by decide⟩

/-- C6 — an `iq` stanza in the `jabber:client` namespace whose query is a
room-discovery reply with N items produces exactly one event: a list of
exactly N `Room`s whose i-th entry takes its `Id` from the i-th item's jid
and its `Name` from that item's name, in source order. -/
theorem c6_rooms_reply (e : Element) (q : Query) (body : String)
    (h1 : e.Name.Local = "iq") (h2 : e.Name.Space = NsJabberClient)
    (h3 : q.Space = NsDisco) :
    dispatch e q body =
      some (.rooms (q.Items.map (fun item => { Id := item.Jid, Name := item.Name }))) ∧
    (q.Items.map (fun item => ({ Id := item.Jid, Name := item.Name } : Room))).length
      = q.Items.length ∧
    ∀ i (hi : i < q.Items.length),
      ((q.Items.map (fun item => ({ Id := item.Jid, Name := item.Name } : Room))).get
        ⟨i, by rw [List.length_map]; exact hi⟩).Id = (q.Items.get ⟨i, hi⟩).Jid ∧
      ((q.Items.map (fun item => ({ Id := item.Jid, Name := item.Name } : Room))).get
        ⟨i, by rw [List.length_map]; exact hi⟩).Name = (q.Items.get ⟨i, hi⟩).Name := by
  refine ⟨by simp [dispatch, localSpace, h1, h2, h3], by simp, ?_⟩
  intro i hi
  constructor <;> simp

/-- Witness for C6: a two-item discovery reply becomes the two rooms in
source order. -/
theorem c6_rooms_reply_witness :
    dispatch ⟨⟨"iq", NsJabberClient⟩, []⟩
      ⟨NsDisco, [⟨"1_room@conf.hipchat.com", "First", ""⟩,
                 ⟨"2_room@conf.hipchat.com", "Second", ""⟩]⟩ "" =
      some (.rooms [{ Id := "1_room@conf.hipchat.com", Name := "First" },
                    { Id := "2_room@conf.hipchat.com", Name := "Second" }]) :=
  (c6_rooms_reply _ _ _ rfl rfl rfl).1

/-- C7 — an `iq` stanza in the `jabber:client` namespace whose query is a
roster reply with N items produces exactly one event: a list of exactly N
`User`s whose i-th entry takes `Id`, `Name` and `MentionName` from the
i-th item's jid, name and mention name, in source order. -/
theorem c7_users_reply (e : Element) (q : Query) (body : String)
    (h1 : e.Name.Local = "iq") (h2 : e.Name.Space = NsJabberClient)
    (h3 : q.Space = NsIqRoster) :
    dispatch e q body =
      some (.users (q.Items.map (fun item =>
        { Id := item.Jid, Name := item.Name, MentionName := item.MentionName }))) ∧
    (q.Items.map (fun item =>
      ({ Id := item.Jid, Name := item.Name, MentionName := item.MentionName } : User))).length
      = q.Items.length ∧
    ∀ i (hi : i < q.Items.length),
      ((q.Items.map (fun item =>
        ({ Id := item.Jid, Name := item.Name, MentionName := item.MentionName } : User))).get
        ⟨i, by rw [List.length_map]; exact hi⟩).Id = (q.Items.get ⟨i, hi⟩).Jid ∧
      ((q.Items.map (fun item =>
        ({ Id := item.Jid, Name := item.Name, MentionName := item.MentionName } : User))).get
        ⟨i, by rw [List.length_map]; exact hi⟩).Name = (q.Items.get ⟨i, hi⟩).Name ∧
      ((q.Items.map (fun item =>
        ({ Id := item.Jid, Name := item.Name, MentionName := item.MentionName } : User))).get
        ⟨i, by rw [List.length_map]; exact hi⟩).MentionName
        = (q.Items.get ⟨i, hi⟩).MentionName := by
  have hd : (NsIqRoster == NsDisco) = false := by decide
  refine ⟨by simp [dispatch, localSpace, h1, h2, h3, hd], by simp, ?_⟩
  intro i hi
  refine ⟨by simp, by simp, by simp⟩

/-- Witness for C7: a one-item roster reply becomes the one user with all
three fields preserved. -/
theorem c7_users_reply_witness :
    dispatch ⟨⟨"iq", NsJabberClient⟩, []⟩
      ⟨NsIqRoster, [⟨"bob@chat.hipchat.com", "Bob B", "bob"⟩]⟩ "" =
      some (.users [{ Id := "bob@chat.hipchat.com", Name := "Bob B", MentionName := "bob" }]) :=
  (c7_users_reply _ _ _ rfl rfl rfl).1

/-- C8, counterexample — the claim "group-chat path if and only if the
destination is within the room-service domain" fails on the destination
`conf.hipchat.com@chat.hipchat.com`: its domain part is the account
domain, so it is not within `conf.hipchat.com`, yet `Say` takes the
group-chat send path because `strings.Contains` finds the room-service
hostname inside the local part. -/
theorem c8_say_domain_counterexample :
    isMUC (Say ⟨"bob", "pw", "desk", "bob@chat.hipchat.com", true, some 1, true, true, true, true⟩
      "conf.hipchat.com@chat.hipchat.com" "desk" "hi") = true ∧
    withinDomain "conf.hipchat.com@chat.hipchat.com" conf = false := by
  constructor <;> rfl

/-- C8, amended — `Say` routes through the group-chat send path exactly
when the destination string contains `conf.hipchat.com` as a substring
(Go `strings.Contains`), not when the destination's domain lies within
the room-service domain. -/
theorem c8_say_routes_on_substring (c : ClientState) («to» name body : String) :
    isMUC (Say c «to» name body) = containsSubstr «to» conf := by
  cases hx : containsSubstr «to» conf <;> simp [Say, isMUC, hx]

/-- A scripted element that is not a `jabber:client` `iq` never decides the
result of the `authenticate` read loop. -/
theorem authLoop_cons_not_iq (e : Element) (f : Features) (q : Query) (b : String)
    (rest : List NextResult)
    (h : (localSpace e == "iq" ++ NsJabberClient) = false) :
    (authLoop (NextResult.elem e f q b :: rest)).2 = (authLoop rest).2 := by
  by_cases hs : (localSpace e == "stream" ++ NsStream) = true
  · simp [authLoop, hs]
  · by_cases hp : (localSpace e == "proceed" ++ NsTLS) = true
    · simp [authLoop, hs, hp]
    · simp [authLoop, hs, hp, h]

/-- A `jabber:client` `iq` element terminates the `authenticate` read loop
with success exactly on a `type=result` attribute. -/
theorem authLoop_cons_iq (e : Element) (f : Features) (q : Query) (b : String)
    (rest : List NextResult)
    (h : (localSpace e == "iq" ++ NsJabberClient) = true) :
    authLoop (NextResult.elem e f q b :: rest) =
      if hasTypeResult e.Attr then ([], AuthResult.ok) else ([], AuthResult.failed) := by
  have he : localSpace e = "iq" ++ NsJabberClient := by simpa using h
  have hs : (localSpace e == "stream" ++ NsStream) = false := by rw [he]; decide
  have hp : (localSpace e == "proceed" ++ NsTLS) = false := by rw [he]; decide
  simp [authLoop, hs, hp, h]

/-- The loop result when the first stopping event of the script is an `iq`
element. -/
theorem authLoop_iq_stop : ∀ (s : List NextResult) (e : Element),
    firstAuthStop s = some (AuthStop.iqElem e) →
    (authLoop s).2 = if hasTypeResult e.Attr then AuthResult.ok else AuthResult.failed := by
  intro s
  induction s with
  | nil => intro e h; simp [firstAuthStop] at h
  | cons x rest ih =>
    intro e h
    cases x with
    | fail m => simp [firstAuthStop] at h
    | elem e2 f q b =>
      by_cases hiq : (localSpace e2 == "iq" ++ NsJabberClient) = true
      · have he2 : e2 = e := by simpa [firstAuthStop, hiq] using h
        subst he2
        rw [authLoop_cons_iq _ _ _ _ _ hiq]
        split <;> rfl
      · have h2 : firstAuthStop rest = some (AuthStop.iqElem e) := by
          simpa [firstAuthStop, hiq] using h
        rw [authLoop_cons_not_iq _ _ _ _ _ (by simpa using hiq)]
        exact ih e h2

/-- The loop result when the first stopping event of the script is a read
failure. -/
theorem authLoop_fail_stop : ∀ (s : List NextResult) (m : String),
    firstAuthStop s = some (AuthStop.readFail m) →
    (authLoop s).2 = AuthResult.transport m := by
  intro s
  induction s with
  | nil => intro m h; simp [firstAuthStop] at h
  | cons x rest ih =>
    intro m h
    cases x with
    | fail m2 =>
      have hm : m2 = m := by simpa [firstAuthStop] using h
      subst hm
      rfl
    | elem e2 f q b =>
      by_cases hiq : (localSpace e2 == "iq" ++ NsJabberClient) = true
      · simp [firstAuthStop, hiq] at h
      · have h2 : firstAuthStop rest = some (AuthStop.readFail m) := by
          simpa [firstAuthStop, hiq] using h
        rw [authLoop_cons_not_iq _ _ _ _ _ (by simpa using hiq)]
        exact ih m h2

/-- A successful loop result can only come from a first-stopping `iq`
element that carries `type=result`. -/
theorem authLoop_ok_stop : ∀ s : List NextResult,
    (authLoop s).2 = AuthResult.ok →
    ∃ e, firstAuthStop s = some (AuthStop.iqElem e) ∧ hasTypeResult e.Attr = true := by
  intro s
  induction s with
  | nil => intro h; simp [authLoop] at h
  | cons x rest ih =>
    intro h
    cases x with
    | fail m => simp [authLoop] at h
    | elem e2 f q b =>
      by_cases hiq : (localSpace e2 == "iq" ++ NsJabberClient) = true
      · rw [authLoop_cons_iq _ _ _ _ _ hiq] at h
        by_cases ht : hasTypeResult e2.Attr = true
        · exact ⟨e2, by simp [firstAuthStop, hiq], ht⟩
        · simp [ht] at h
      · rw [authLoop_cons_not_iq _ _ _ _ _ (by simpa using hiq)] at h
        obtain ⟨e, h1, h2⟩ := ih h
        exact ⟨e, by simpa [firstAuthStop, hiq], h2⟩

/-- C3 — per stream-features element of the authentication loop: if
STARTTLS is offered, the very next transport call is the TLS upgrade
request and no credential submission happens in response to that element
(so the upgrade request precedes any later credential submission); if
STARTTLS is not offered but PLAIN is listed, credentials are submitted
(once per PLAIN listing) with no TLS upgrade attempt; and the `proceed`
reply performs the upgrade and immediately re-opens the stream. -/
theorem c3_starttls_precedence (e : Element) (f : Features) (q : Query) (b : String)
    (rest : List NextResult) :
    (e.Name.Local = "stream" → e.Name.Space = NsStream → f.StartTLS = true →
      authLoop (NextResult.elem e f q b :: rest) =
        (AuthAction.startTLS :: (authLoop rest).1, (authLoop rest).2)) ∧
    (e.Name.Local = "stream" → e.Name.Space = NsStream → f.StartTLS = false →
      "PLAIN" ∈ f.Mechanisms →
      authLoop (NextResult.elem e f q b :: rest) =
        ((f.Mechanisms.filter (fun m => m == "PLAIN")).map (fun _ => AuthAction.auth)
          ++ (authLoop rest).1, (authLoop rest).2) ∧
      AuthAction.auth ∈ (f.Mechanisms.filter (fun m => m == "PLAIN")).map
        (fun _ => AuthAction.auth) ∧
      AuthAction.startTLS ∉ (f.Mechanisms.filter (fun m => m == "PLAIN")).map
        (fun _ => AuthAction.auth)) ∧
    (e.Name.Local = "proceed" → e.Name.Space = NsTLS →
      authLoop (NextResult.elem e f q b :: rest) =
        (AuthAction.useTLS :: AuthAction.stream :: (authLoop rest).1, (authLoop rest).2)) := by
  refine ⟨?_, ?_, ?_⟩
  · intro h1 h2 hT
    have hs : (localSpace e == "stream" ++ NsStream) = true := by
      simp [localSpace, h1, h2]
    simp [authLoop, hs, hT]
  · intro h1 h2 hT hm
    have hs : (localSpace e == "stream" ++ NsStream) = true := by
      simp [localSpace, h1, h2]
    refine ⟨by simp [authLoop, hs, hT], ?_, by simp⟩
    have hmf : "PLAIN" ∈ f.Mechanisms.filter (fun m => m == "PLAIN") :=
      List.mem_filter.mpr ⟨hm, by simp⟩
    exact List.mem_map.mpr ⟨"PLAIN", hmf, rfl⟩
  · intro h1 h2
    have he : localSpace e = "proceed" ++ NsTLS := by simp [localSpace, h1, h2]
    have hs : (localSpace e == "stream" ++ NsStream) = false := by rw [he]; decide
    have hp : (localSpace e == "proceed" ++ NsTLS) = true := by rw [he]; simp
    simp [authLoop, hs, hp]

/-- Witness for C3: a stream-features element offering STARTTLS makes the
upgrade request the sole response, with no credential submission. -/
theorem c3_starttls_precedence_witness :
    authLoop [NextResult.elem ⟨⟨"stream", NsStream⟩, []⟩ ⟨true, ["PLAIN"]⟩ ⟨"", []⟩ ""] =
      ([AuthAction.startTLS], AuthResult.stalled) :=
  (c3_starttls_precedence ⟨⟨"stream", NsStream⟩, []⟩ ⟨true, ["PLAIN"]⟩ ⟨"", []⟩ "" []).1
    rfl rfl rfl

/-- C4 — the authentication phase succeeds exactly when the first
`jabber:client` `iq` element read (before any read failure) carries a
`type=result` attribute; such an element without it yields the
authentication-failure error (a different value from every transport
error), and a read failure occurring first yields that transport error. -/
theorem c4_auth_termination (script : List NextResult) :
    ((authenticate script).2 = AuthResult.ok ↔
      ∃ e, firstAuthStop script = some (AuthStop.iqElem e) ∧ hasTypeResult e.Attr = true) ∧
    (∀ e, firstAuthStop script = some (AuthStop.iqElem e) → hasTypeResult e.Attr = false →
      (authenticate script).2 = AuthResult.failed) ∧
    (∀ msg, firstAuthStop script = some (AuthStop.readFail msg) →
      (authenticate script).2 = AuthResult.transport msg) ∧
    (∀ msg, AuthResult.failed ≠ AuthResult.transport msg) := by
  have hA : (authenticate script).2 = (authLoop script).2 := rfl
  refine ⟨⟨?_, ?_⟩, ?_, ?_, ?_⟩
  · intro h
    exact authLoop_ok_stop script (hA ▸ h)
  · rintro ⟨e, h1, h2⟩
    rw [hA, authLoop_iq_stop script e h1, h2]
    rfl
  · intro e h1 h2
    rw [hA, authLoop_iq_stop script e h1, h2]
    rfl
  · intro msg h1
    rw [hA]
    exact authLoop_fail_stop script msg h1
  · intro msg hcon
    exact AuthResult.noConfusion hcon

/-- Witness for C4: a script whose first read is an `iq` with
`type=result` authenticates successfully. -/
theorem c4_auth_termination_witness :
    (authenticate [NextResult.elem ⟨⟨"iq", NsJabberClient⟩, [⟨⟨"type", ""⟩, "result"⟩]⟩
      ⟨false, []⟩ ⟨"", []⟩ ""]).2 = AuthResult.ok :=
  (c4_auth_termination _).1.mpr
    ⟨⟨⟨"iq", NsJabberClient⟩, [⟨⟨"type", ""⟩, "result"⟩]⟩, by decide, by decide⟩
